import Mathlib

/-!
Verification development for the vizro-ai chart/dashboard generation pipeline.

The development shallowly embeds the retry/pipeline logic of the repository:
the bounded-retry self-debugging loop, the top-level `plot` entry point and
its `_run_plot_tasks` helper, the dashboard graph state and its nodes, the
dataset-name sanitization, the fixed dashboard state graph, and the
model-name resolution table. External LLM calls ("oracles") and the code
executor are abstracted as function parameters, matching the specification's
black-box treatment of those interfaces.
-/

set_option autoImplicit false

namespace VizroAI

/-! ## Debug retry loop -/

/-- Result dictionary returned by the debug loop, as consumed by
`_run_plot_tasks` via the keys `debug_status` and `code_string`. -/
structure DebugResult where
  debug_status : Bool
  code_string : String
  deriving DecidableEq

/-- The sentinel marker: any code string beginning with this literal signals
exhausted-retry failure to downstream consumers. -/
def failSentinel : String := "Failed to debug code"

/-- Model of the Python string method `s.startswith(pre)`: the character
sequence of `pre` is a prefix of the character sequence of `s`. -/
def startswith (s pre : String) : Bool := pre.data.isPrefixOf s.data

/-- Modelled from the spec: the file `vizro_ai/utils/helper.py` that defines
`_debug_helper` is not present under the sources, only its caller; the loop is
therefore modelled from the specification's algorithm (section 4.2).
Given an executor `execCode` (`none` means the candidate code executed
successfully, `some err` captures the error text), a fix oracle `fixChain`
(failing code and error text to a rewritten candidate), the current candidate
`codeString` and a retry budget, the loop attempts execution; on success it
returns validity valid (debug_status true) with the current code; on failure
it consumes one unit of budget to call the fix oracle and recurses; with the
budget exhausted it returns validity failed (debug_status false) with the
sentinel marker followed by the last failing candidate. The second component
of the returned pair instruments the number of fix-oracle invocations made. -/
def _debug_helper (execCode : String → Option String)
    (fixChain : String → String → String) :
    String → Nat → DebugResult × Nat
  | codeString, n =>
    match execCode codeString with
    | none => ({ debug_status := true, code_string := codeString }, 0)
    | some err =>
      match n with
      | 0 => ({ debug_status := false,
                code_string := failSentinel ++ " " ++ codeString }, 0)
      | Nat.succ m =>
        let next := fixChain codeString err
        let r := _debug_helper execCode fixChain next m
        (r.1, r.2 + 1)

/-- The candidate code after `n` rounds of failing execution followed by a
fix-oracle rewrite, starting from `c`. Used to name the "last failing
candidate" in the exhausted-retry statement. -/
def candidateAfter (execCode : String → Option String)
    (fixChain : String → String → String) : String → Nat → String
  | c, 0 => c
  | c, Nat.succ m =>
    match execCode c with
    | none => candidateAfter execCode fixChain c m
    | some err => candidateAfter execCode fixChain (fixChain c err) m

/-! ## Top-level plot tasks (`VizroAI._run_plot_tasks` and `VizroAI.plot`) -/

/-- Output dictionary of `VizroAI._run_plot_tasks` with keys
`business_insights`, `code_explanation` and `code_string`; the first two are
`None` unless the explanation component ran. -/
structure PlotTasksOutput where
  business_insights : Option String
  code_explanation : Option String
  code_string : String
  deriving DecidableEq

/-- The LLM-backed stages and the executor that `VizroAI` composes, abstracted
as black-box oracles per the specification's external-interface contract:
the chart-type pipeline, the plot pipeline, the `GetDebugger` fix chain, the
`GetCodeExplanation` component, and the code executor (which closes over the
dataframe; `none` = execution succeeded, `some err` = captured error text). -/
structure PlotOracles where
  chartTypeOracle : String → String
  plotOracle : String → String → String
  fixOracle : String → String → String
  explainOracle : String → String → String × String
  execCode : String → Option String

/-- Embedding of `VizroAI._run_plot_tasks`
(src/vizro-ai/src/vizro_ai/_vizro_ai.py): run the chart-type pipeline, then
the plot pipeline, then the debug loop; the explanation component runs only
when `explain` is requested and the debug status passed, otherwise both
explanation fields stay `None`. -/
def _run_plot_tasks (o : PlotOracles) (userInput : String)
    (maxDebugRetry : Nat) (explain : Bool) : PlotTasksOutput :=
  let chartTypes := o.chartTypeOracle userInput
  let customChartCode := o.plotOracle userInput chartTypes
  let validated := (_debug_helper o.execCode o.fixOracle customChartCode maxDebugRetry).1
  if explain && validated.debug_status then
    let e := o.explainOracle userInput validated.code_string
    { business_insights := some e.1, code_explanation := some e.2,
      code_string := validated.code_string }
  else
    { business_insights := none, code_explanation := none,
      code_string := validated.code_string }

/-- The domain error raised by `VizroAI.plot` on retry exhaustion. -/
structure DebugFailure where
  message : String
  deriving DecidableEq

/-- The fixed message text `VizroAI.plot` prepends to the sentinel-marked code
string when raising `DebugFailure`. -/
def debugFailureMsg : String :=
  "Chart creation failed. Retry debugging has reached maximum limit. Try to rephrase the prompt, or try to select a different model. Fallout response is provided: \n\n"

/-- Observable outcome of a call to `VizroAI.plot`: a raised `DebugFailure`,
a returned figure object (the `embed` path), the returned output dictionary
(the `_return_all_text` path), or a plain `None` return. -/
inductive PlotOutcome where
  | raised (e : DebugFailure)
  | figure (code : String)
  | bundle (d : PlotTasksOutput)
  | returnedNone
  deriving DecidableEq

/-- Embedding of `VizroAI.plot` (src/vizro-ai/src/vizro_ai/_vizro_ai.py,
lines 105-139). The display-only side effects (`_exec_code` with
`show_fig=True`, `_display_markdown_and_chart`) do not contribute to the
returned value and are not modelled. `returnAllText` models the class
attribute `_return_all_text` (`False` on the class). -/
def plot (o : PlotOracles) (userInput : String) (explain : Bool)
    (maxDebugRetry : Nat) (embed : Bool) (returnAllText : Bool) : PlotOutcome :=
  let outputDict := _run_plot_tasks o userInput maxDebugRetry explain
  if startswith outputDict.code_string failSentinel then
    PlotOutcome.raised { message := debugFailureMsg ++ outputDict.code_string }
  else if embed then PlotOutcome.figure outputDict.code_string
  else if returnAllText then PlotOutcome.bundle outputDict
  else PlotOutcome.returnedNone

/-- Concrete oracles under which the initially generated code executes
successfully at once. -/
def okOracles : PlotOracles where
  chartTypeOracle := fun _ => "bar"
  plotOracle := fun _ _ => "fig = px.bar(df)"
  fixOracle := fun c _ => c
  explainOracle := fun _ _ => ("insights", "explanation")
  execCode := fun _ => none

/-- Concrete oracles under which every candidate fails to execute. -/
def failOracles : PlotOracles where
  chartTypeOracle := fun _ => "bar"
  plotOracle := fun _ _ => "broken"
  fixOracle := fun c _ => c ++ "!"
  explainOracle := fun _ _ => ("insights", "explanation")
  execCode := fun _ => some "NameError"

/-! ## Dataset-name sanitization (`_store_df_info`, code_generation.py) -/

/-- A word character for the regex class backslash-w over ASCII input:
letters, digits and the underscore. -/
def isWordChar (c : Char) : Bool := c.isAlphanum || c = '_'

/-- Model of the regex substitution replacing every maximal run of non-word
characters by one underscore, as performed by
re.sub applied to the pattern backslash-W-plus with replacement underscore.
The boolean records whether the previous character belonged to a non-word
run already collapsed. -/
def subNonWordRuns : Bool → List Char → List Char
  | _, [] => []
  | inRun, c :: cs =>
    if isWordChar c then c :: subNonWordRuns false cs
    else if inRun then subNonWordRuns true cs
    else '_' :: subNonWordRuns true cs

/-- Drop a trailing run of characters satisfying `p`. -/
def dropTrailing (p : Char → Bool) : List Char → List Char
  | [] => []
  | c :: cs =>
    match dropTrailing p cs with
    | [] => if p c then [] else [c]
    | res => c :: res

/-- Model of the Python string method strip applied with the underscore
argument: remove leading and trailing underscores. -/
def stripUnderscores (l : List Char) : List Char :=
  dropTrailing (fun c => c = '_') (l.dropWhile (fun c => c = '_'))

/-- The dataset-name sanitization of `_store_df_info`
(src/vizro-ai/src/vizro_ai/dashboard/graph/code_generation.py, lines 85-87):
lowercase the oracle-returned name, collapse non-word runs to a single
underscore, strip leading and trailing underscores. -/
def cleanDfName (s : String) : String :=
  String.mk (stripUnderscores (subNonWordRuns false (s.data.map Char.toLower)))

/-! ## Dashboard graph state (`GraphState`, code_generation.py) -/

/-- Stand-in for a pandas DataFrame. An identifier is all the embedding
needs: schema and sample derivation (`_get_df_info`) is a parameter of the
node embeddings. -/
structure DataFrame where
  dfId : Nat
  deriving DecidableEq

/-- A Python value that may appear as an entry of the `dfs` input. -/
inductive PyObj where
  | dataFrame (df : DataFrame)
  | other (descr : String)
  deriving DecidableEq

def PyObj.isDataFrame : PyObj → Bool
  | .dataFrame _ => true
  | .other _ => false

/-- A Python value that may be passed as the `dfs` field itself: a list of
objects, or something that is not a list at all. -/
inductive PyVal where
  | list (xs : List PyObj)
  | nonList (descr : String)
  deriving DecidableEq

/-- The element loop of the validator `GraphState.check_dataframes`: raise on
the first entry that is not a pandas DataFrame, otherwise accept the list. -/
def checkDfElems : List PyObj → Except String (List DataFrame)
  | [] => Except.ok []
  | PyObj.dataFrame df :: rest => (checkDfElems rest).map (fun l => df :: l)
  | PyObj.other _ :: _ =>
    Except.error "Each element in dfs must be a Pandas DataFrame"

/-- Embedding of the pydantic validator `GraphState.check_dataframes`
(code_generation.py, lines 52-60): reject a non-list `dfs`, then reject any
element that is not a pandas DataFrame. -/
def check_dataframes : PyVal → Except String (List DataFrame)
  | PyVal.nonList _ => Except.error "dfs must be a list"
  | PyVal.list xs => checkDfElems xs

/-- Per-dataset metadata recorded by `_store_df_info`. -/
structure DfMeta where
  df_schema : String
  df_sample : String
  deriving DecidableEq

/-- Embedding of `GraphState` (code_generation.py, lines 29-60): message
history, validated dataframes, and the metadata dictionary (a Python dict,
modelled as an insertion-ordered association list). The optional
`dashboard_plan` and `dashboard` fields default to None and play no role in
the claims, so they are omitted. -/
structure GraphState where
  messages : List (String × String)
  dfs : List DataFrame
  df_metadata : List (String × DfMeta)
  deriving DecidableEq

/-- Construction of `GraphState`: pydantic runs `check_dataframes` on the
`dfs` input at construction time, so a failing validator aborts construction
and no state object is produced. -/
def mkGraphState (messages : List (String × String)) (dfsInput : PyVal)
    (df_metadata : List (String × DfMeta)) : Except String GraphState :=
  (check_dataframes dfsInput).map
    (fun dfs => { messages := messages, dfs := dfs, df_metadata := df_metadata })

/-- The `dfs` input is invalid: not a list, or some element of the list is
not a pandas DataFrame. -/
def badDfsInput : PyVal → Bool
  | PyVal.nonList _ => true
  | PyVal.list xs => xs.any (fun x => !x.isDataFrame)

/-! ## The store_dataset_info node (`_store_df_info`) -/

/-- Python dict assignment d[k] = v on an insertion-ordered association
list: overwrite in place when the key exists, append otherwise. -/
def dictInsert (k : String) (v : DfMeta) :
    List (String × DfMeta) → List (String × DfMeta)
  | [] => [(k, v)]
  | (k', v') :: rest =>
    if k' = k then (k, v) :: rest else (k', v') :: dictInsert k v rest

/-- Python dict lookup d.get(k). -/
def dictGet (k : String) : List (String × DfMeta) → Option DfMeta
  | [] => none
  | (k', v') :: rest => if k' = k then some v' else dictGet k rest

/-- Structured output of the dataset-naming oracle (`DfInfo`). -/
structure DfInfo where
  dataset_name : String
  deriving DecidableEq

/-- The loop of `_store_df_info` (code_generation.py, lines 74-91): for each
dataframe, derive schema and sample (`getDfInfo` models `_get_df_info`), call
the naming oracle with the accumulated structured names, sanitize the
returned name, and assign the metadata into the dict under the sanitized
key. -/
def storeDfInfoGo (getDfInfo : DataFrame → String × String)
    (nameOracle : String → String → List (String × String) → List DfInfo → DfInfo)
    (messages : List (String × String)) :
    List DataFrame → List DfInfo → List (String × DfMeta) →
      List (String × DfMeta)
  | [], _, md => md
  | df :: rest, names, md =>
    storeDfInfoGo getDfInfo nameOracle messages rest
      (names ++ [nameOracle (getDfInfo df).1 (getDfInfo df).2 messages names])
      (dictInsert
        (cleanDfName (nameOracle (getDfInfo df).1 (getDfInfo df).2 messages names).dataset_name)
        { df_schema := (getDfInfo df).1, df_sample := (getDfInfo df).2 } md)

/-- Embedding of the node `_store_df_info`: its partial-state update, the
updated `df_metadata` dictionary. -/
def _store_df_info (getDfInfo : DataFrame → String × String)
    (nameOracle : String → String → List (String × String) → List DfInfo → DfInfo)
    (state : GraphState) : List (String × DfMeta) :=
  storeDfInfoGo getDfInfo nameOracle state.messages state.dfs [] state.df_metadata

/-- The sequence of (sanitized key, metadata) pairs the loop assigns, in
order. -/
def producedEntries (getDfInfo : DataFrame → String × String)
    (nameOracle : String → String → List (String × String) → List DfInfo → DfInfo)
    (messages : List (String × String)) :
    List DataFrame → List DfInfo → List (String × DfMeta)
  | [], _ => []
  | df :: rest, names =>
    (cleanDfName (nameOracle (getDfInfo df).1 (getDfInfo df).2 messages names).dataset_name,
     { df_schema := (getDfInfo df).1, df_sample := (getDfInfo df).2 }) ::
      producedEntries getDfInfo nameOracle messages rest
        (names ++ [nameOracle (getDfInfo df).1 (getDfInfo df).2 messages names])

/-- The value of the last assignment with the given key among the produced
entries, if any. -/
def lastWrite (k : String) (entries : List (String × DfMeta)) : Option DfMeta :=
  (entries.reverse.find? (fun p => p.1 = k)).map Prod.snd

/-! ## The dashboard state graph (`_create_and_compile_graph`) -/

/-- The langgraph END sentinel node name. -/
def ENDNode : String := "__end__"

/-- A state graph as assembled by langgraph StateGraph: named nodes,
directed unconditional edges, and an entry point. -/
structure StateGraphDef where
  nodes : List String
  edges : List (String × String)
  entry : String

/-- Embedding of `_create_and_compile_graph` (code_generation.py, lines
187-206): the five dashboard nodes, the five unconditional edges ending at
END, and the entry point. -/
def _create_and_compile_graph : StateGraphDef where
  nodes := ["_store_df_info", "_compose_imports_code", "_dashboard_plan",
            "_build_dashboard", "_generate_dashboard_code"]
  edges := [("_store_df_info", "_compose_imports_code"),
            ("_compose_imports_code", "_dashboard_plan"),
            ("_dashboard_plan", "_build_dashboard"),
            ("_build_dashboard", "_generate_dashboard_code"),
            ("_generate_dashboard_code", ENDNode)]
  entry := "_store_df_info"

/-- The successor of a node along the first matching unconditional edge. -/
def nextNode (g : StateGraphDef) (nd : String) : Option String :=
  (g.edges.find? (fun e => e.1 = nd)).map Prod.snd

/-- Execution order of the compiled graph (the langgraph runtime on a graph
with only unconditional edges): starting from a node, follow successors
until the END sentinel; the fuel bounds the walk. -/
def traceFrom (g : StateGraphDef) : Nat → String → List String
  | 0, _ => []
  | Nat.succ f, nd =>
    if nd = ENDNode then []
    else nd :: (match nextNode g nd with
      | none => []
      | some m => traceFrom g f m)

/-- The node execution order of one run of the compiled graph. -/
def graphTrace (g : StateGraphDef) (fuel : Nat) : List String :=
  traceFrom g fuel g.entry

/-! ## Model resolution (`_get_llm_model`, chains/_llm_models.py) -/

/-- The wrapper classes appearing in the predefined model table. -/
inductive Wrapper where
  | chatOpenAI
  | chatAnthropic
  deriving DecidableEq

/-- An entry of the predefined model table: context-window size and wrapper
class. -/
structure ModelEntry where
  max_tokens : Nat
  wrapper : Wrapper
  deriving DecidableEq

/-- Embedding of PREDEFINED_MODELS (chains/_llm_models.py, lines 17-58); the
two Anthropic entries are merged in only when langchain_anthropic imports
successfully, which the flag records. -/
def PREDEFINED_MODELS (anthropicAvailable : Bool) : List (String × ModelEntry) :=
  [("gpt-3.5-turbo-0613", { max_tokens := 4096, wrapper := Wrapper.chatOpenAI }),
   ("gpt-4-0613", { max_tokens := 8192, wrapper := Wrapper.chatOpenAI }),
   ("gpt-3.5-turbo-1106", { max_tokens := 16385, wrapper := Wrapper.chatOpenAI }),
   ("gpt-4-1106-preview", { max_tokens := 128000, wrapper := Wrapper.chatOpenAI }),
   ("gpt-3.5-turbo-0125", { max_tokens := 16385, wrapper := Wrapper.chatOpenAI }),
   ("gpt-3.5-turbo", { max_tokens := 16385, wrapper := Wrapper.chatOpenAI }),
   ("gpt-4-turbo", { max_tokens := 128000, wrapper := Wrapper.chatOpenAI }),
   ("gpt-4o", { max_tokens := 128000, wrapper := Wrapper.chatOpenAI })] ++
  (if anthropicAvailable then
    [("claude-3-haiku-20240307", { max_tokens := 200000, wrapper := Wrapper.chatAnthropic }),
     ("claude-3-sonnet-20240229", { max_tokens := 200000, wrapper := Wrapper.chatAnthropic })]
   else [])

def DEFAULT_MODEL : String := "gpt-3.5-turbo"

/-- An instantiated chat model, as produced by a wrapper class call. -/
structure LLMInstance where
  wrapper : Wrapper
  model_name : String
  temperature : Nat
  deriving DecidableEq

/-- The argument accepted by `_get_llm_model`: None, an already-instantiated
ChatOpenAI model, or a model-name string. -/
inductive ModelArg where
  | noModel
  | instanceOf (inst : LLMInstance)
  | name (s : String)
  deriving DecidableEq

/-- Python truthiness test `not model`: None and the empty string are falsy;
model instances and non-empty strings are truthy. -/
def ModelArg.isFalsy : ModelArg → Bool
  | .noModel => true
  | .instanceOf _ => false
  | .name s => s == ""

/-- The ValueError message raised for an unknown model name. -/
def modelNotFoundMsg (s : String) : String :=
  "Model " ++ s ++ " not found! List of available model can be found at https://vizro.readthedocs.io/projects/vizro-ai/en/latest/pages/explanation/faq/#which-llms-are-supported-by-vizro-ai"

/-- Embedding of `_get_llm_model` (chains/_llm_models.py, lines 65-86): a
falsy argument yields the default ChatOpenAI model, an instance is returned
unchanged, a known name yields the table's wrapper instantiated with that
name, and anything else raises ValueError. -/
def _get_llm_model (anthropicAvailable : Bool) (model : ModelArg) :
    Except String LLMInstance :=
  if model.isFalsy then
    Except.ok { wrapper := Wrapper.chatOpenAI, model_name := DEFAULT_MODEL,
                temperature := 0 }
  else
    match model with
    | ModelArg.noModel =>
      Except.ok { wrapper := Wrapper.chatOpenAI, model_name := DEFAULT_MODEL,
                  temperature := 0 }
    | ModelArg.instanceOf inst => Except.ok inst
    | ModelArg.name s =>
      match (PREDEFINED_MODELS anthropicAvailable).find? (fun p => p.1 = s) with
      | some p =>
        Except.ok { wrapper := p.2.wrapper, model_name := s, temperature := 0 }
      | none => Except.error (modelNotFoundMsg s)

end VizroAI

namespace VizroAI

/-! ## Basic lemmas about the debug loop -/

theorem debug_helper_succ_fail (execCode : String → Option String)
    (fixChain : String → String → String) (c : String) (m : Nat) (err : String)
    (h : execCode c = some err) :
    _debug_helper execCode fixChain c (m + 1) =
      ((_debug_helper execCode fixChain (fixChain c err) m).1,
       (_debug_helper execCode fixChain (fixChain c err) m).2 + 1) := by
  conv_lhs => rw [_debug_helper]
  rw [h]

theorem debug_helper_exec_ok (execCode : String → Option String)
    (fixChain : String → String → String) (c : String) (n : Nat)
    (h : execCode c = none) :
    _debug_helper execCode fixChain c n =
      ({ debug_status := true, code_string := c }, 0) := by
  cases n <;> simp [_debug_helper, h]

theorem debug_helper_zero_fail (execCode : String → Option String)
    (fixChain : String → String → String) (c : String) (err : String)
    (h : execCode c = some err) :
    _debug_helper execCode fixChain c 0 =
      ({ debug_status := false, code_string := failSentinel ++ " " ++ c }, 0) := by
  simp [_debug_helper, h]

/-- With an executor that fails on every candidate, the loop with budget `n`
returns a failed result carrying the sentinel and the candidate after `n`
fixes, and makes exactly `n` fix calls. -/
theorem debug_helper_all_fail (execCode : String → Option String)
    (fixChain : String → String → String)
    (hfail : ∀ s, (execCode s).isSome = true) (c : String) (n : Nat) :
    _debug_helper execCode fixChain c n =
      ({ debug_status := false,
         code_string := failSentinel ++ " " ++ candidateAfter execCode fixChain c n }, n) := by
  induction n generalizing c with
  | zero =>
    obtain ⟨err, herr⟩ := Option.isSome_iff_exists.mp (hfail c)
    simp [debug_helper_zero_fail execCode fixChain c err herr, candidateAfter]
  | succ m ih =>
    obtain ⟨err, herr⟩ := Option.isSome_iff_exists.mp (hfail c)
    rw [debug_helper_succ_fail execCode fixChain c m err herr, ih (fixChain c err)]
    simp [candidateAfter, herr]

theorem startswith_append (a b : String) : startswith (a ++ b) a = true := by
  simp [startswith, List.isPrefixOf_iff_prefix]

/-- The fix-call counter never exceeds the budget. -/
theorem debug_helper_calls_le (execCode : String → Option String)
    (fixChain : String → String → String) (c : String) (n : Nat) :
    (_debug_helper execCode fixChain c n).2 ≤ n := by
  induction n generalizing c with
  | zero =>
    cases h : execCode c with
    | none => simp [debug_helper_exec_ok execCode fixChain c 0 h]
    | some err => simp [debug_helper_zero_fail execCode fixChain c err h]
  | succ m ih =>
    cases h : execCode c with
    | none => simp [debug_helper_exec_ok execCode fixChain c (m + 1) h]
    | some err =>
      rw [debug_helper_succ_fail execCode fixChain c m err h]
      exact Nat.succ_le_succ (ih (fixChain c err))

/-! ## Claim theorems (debug loop) -/

/-- Claim C1: for every retry budget and every fix oracle under an executor that
never accepts any candidate, the loop makes exactly `n` fix calls and returns
a failed result whose code string is the sentinel marker followed by the last
failing candidate (so it is prefixed by the sentinel and contains that
candidate); and when the initial execution succeeds the loop returns validity
valid with the current code text and zero fix calls. -/
theorem debug_loop_exhaustion_and_success (execCode : String → Option String)
    (fixChain : String → String → String) (c : String) (n : Nat) :
    ((∀ s, (execCode s).isSome = true) →
      _debug_helper execCode fixChain c n =
        ({ debug_status := false,
           code_string := failSentinel ++ " " ++ candidateAfter execCode fixChain c n }, n) ∧
      startswith (failSentinel ++ " " ++ candidateAfter execCode fixChain c n) failSentinel = true) ∧
    (execCode c = none →
      _debug_helper execCode fixChain c n =
        ({ debug_status := true, code_string := c }, 0)) := by
  constructor
  · intro hfail
    refine ⟨debug_helper_all_fail execCode fixChain hfail c n, ?_⟩
    exact startswith_append failSentinel (" " ++ candidateAfter execCode fixChain c n)
  · intro h
    exact debug_helper_exec_ok execCode fixChain c n h

/-- Witness for C1 at a concrete always-failing executor and a concrete
initially-succeeding executor. -/
theorem debug_loop_exhaustion_and_success_witness :
    _debug_helper (fun _ => some "err") (fun c _ => c ++ "!") "bad" 2 =
      ({ debug_status := false, code_string := failSentinel ++ " " ++ "bad!!" }, 2) ∧
    _debug_helper (fun _ => none) (fun c _ => c) "ok" 2 =
      ({ debug_status := true, code_string := "ok" }, 0) := by
  constructor
  · have h := ((debug_loop_exhaustion_and_success (fun _ => some "err")
      (fun c _ => c ++ "!") "bad" 2).1 (fun _ => rfl)).1
    rw [h]
    decide
  · exact (debug_loop_exhaustion_and_success (fun _ => none) (fun c _ => c) "ok" 2).2 rfl

/-- Claim C2: the loop makes at most `n` fix calls for every oracle and executor,
and with budget zero no repair attempt is made: the result is decided by the
initial execution alone, with zero fix calls in either case. -/
theorem debug_loop_terminates_within_budget (execCode : String → Option String)
    (fixChain : String → String → String) (c : String) (n : Nat) :
    (_debug_helper execCode fixChain c n).2 ≤ n ∧
    _debug_helper execCode fixChain c 0 =
      (match execCode c with
       | none => ({ debug_status := true, code_string := c }, 0)
       | some _ => ({ debug_status := false, code_string := failSentinel ++ " " ++ c }, 0)) := by
  refine ⟨debug_helper_calls_le execCode fixChain c n, ?_⟩
  cases h : execCode c with
  | none => simp [debug_helper_exec_ok execCode fixChain c 0 h]
  | some err => simp [debug_helper_zero_fail execCode fixChain c err h]

/-! ## Lemmas and claim theorems for plot -/

theorem plot_unfold (o : PlotOracles) (u : String) (e : Bool) (n : Nat)
    (embed rat : Bool) :
    plot o u e n embed rat =
      if startswith (_run_plot_tasks o u n e).code_string failSentinel then
        PlotOutcome.raised
          { message := debugFailureMsg ++ (_run_plot_tasks o u n e).code_string }
      else if embed then PlotOutcome.figure (_run_plot_tasks o u n e).code_string
      else if rat then PlotOutcome.bundle (_run_plot_tasks o u n e)
      else PlotOutcome.returnedNone := rfl

/-- Claim C3: `plot` raises `DebugFailure` exactly when the code string produced by
the debug stage starts with the sentinel literal, and the raised message is
the fixed failure text followed by that sentinel-marked code string (hence it
contains it). -/
theorem plot_raises_iff_sentinel (o : PlotOracles) (u : String) (e : Bool)
    (n : Nat) (embed rat : Bool) :
    ((∃ msg, plot o u e n embed rat = PlotOutcome.raised { message := msg }) ↔
      startswith (_run_plot_tasks o u n e).code_string failSentinel = true) ∧
    (∀ msg, plot o u e n embed rat = PlotOutcome.raised { message := msg } →
      msg = debugFailureMsg ++ (_run_plot_tasks o u n e).code_string) := by
  rw [plot_unfold]
  cases h : startswith (_run_plot_tasks o u n e).code_string failSentinel with
  | true => simp
  | false => cases embed <;> cases rat <;> simp

/-- Witness for C3 at concrete failing oracles: the sentinel is present, a
`DebugFailure` is raised, and its message is the failure text followed by
the sentinel-marked code string. -/
theorem plot_raises_iff_sentinel_witness :
    (∃ msg, plot failOracles "bar chart" false 1 false false =
        PlotOutcome.raised { message := msg }) ∧
    ∀ msg, plot failOracles "bar chart" false 1 false false =
        PlotOutcome.raised { message := msg } →
      msg = debugFailureMsg ++
        (_run_plot_tasks failOracles "bar chart" 1 false).code_string := by
  constructor
  · exact (plot_raises_iff_sentinel failOracles "bar chart" false 1 false false).1.mpr
      (by decide)
  · exact (plot_raises_iff_sentinel failOracles "bar chart" false 1 false false).2

/-- Claim C4: when `explain` is requested but the debug status is failing, the
result dictionary has `business_insights` and `code_explanation` equal to
`None`, and the run does not depend on the explanation oracle at all (nor
does any run with `explain = false`). -/
theorem run_plot_tasks_no_explanation_on_failure (o : PlotOracles)
    (f : String → String → String × String) (u : String) (n : Nat)
    (h : (_debug_helper o.execCode o.fixOracle
            (o.plotOracle u (o.chartTypeOracle u)) n).1.debug_status = false) :
    (_run_plot_tasks o u n true).business_insights = none ∧
    (_run_plot_tasks o u n true).code_explanation = none ∧
    _run_plot_tasks { o with explainOracle := f } u n true =
      _run_plot_tasks o u n true ∧
    _run_plot_tasks { o with explainOracle := f } u n false =
      _run_plot_tasks o u n false := by
  unfold _run_plot_tasks
  simp [h]

/-- Witness for C4 at concrete oracles whose executor rejects every
candidate. -/
theorem run_plot_tasks_no_explanation_on_failure_witness :
    (_run_plot_tasks failOracles "bar chart" 3 true).business_insights = none ∧
    (_run_plot_tasks failOracles "bar chart" 3 true).code_explanation = none ∧
    _run_plot_tasks
        { failOracles with explainOracle := fun _ _ => ("x", "y") } "bar chart" 3 true =
      _run_plot_tasks failOracles "bar chart" 3 true ∧
    _run_plot_tasks
        { failOracles with explainOracle := fun _ _ => ("x", "y") } "bar chart" 3 false =
      _run_plot_tasks failOracles "bar chart" 3 false :=
  run_plot_tasks_no_explanation_on_failure failOracles (fun _ _ => ("x", "y"))
    "bar chart" 3 (by decide)

/-- Counterexample to C9 as stated: at concrete inputs with `embed = false`
and the class default `_return_all_text = false`, a successful run of `plot`
returns `None`, which is none of the three outcomes the claim allows (a
rendered artifact, a text bundle, or a raised domain error). -/
theorem plot_default_path_returns_none :
    plot okOracles "bar chart of sales by region" false 3 false false =
      PlotOutcome.returnedNone ∧
    ¬((∃ m, plot okOracles "bar chart of sales by region" false 3 false false =
          PlotOutcome.raised m) ∨
      (∃ c, plot okOracles "bar chart of sales by region" false 3 false false =
          PlotOutcome.figure c) ∨
      (∃ d, plot okOracles "bar chart of sales by region" false 3 false false =
          PlotOutcome.bundle d)) := by
  refine ⟨by decide, ?_⟩
  have h : plot okOracles "bar chart of sales by region" false 3 false false =
      PlotOutcome.returnedNone := by decide
  rintro (⟨m, hm⟩ | ⟨c, hc⟩ | ⟨d, hd⟩) <;> simp_all

/-- Claim C9, amended: for every combination of the arguments, `plot` either raises
the domain error (exactly when the sentinel is present), returns the figure
object (`embed` path), returns the text-bundle dictionary (`_return_all_text`
path), or returns `None` (the default display-only path). -/
theorem plot_outcome_characterization (o : PlotOracles) (u : String) (e : Bool)
    (n : Nat) (embed rat : Bool) :
    (startswith (_run_plot_tasks o u n e).code_string failSentinel = true →
      plot o u e n embed rat = PlotOutcome.raised
        { message := debugFailureMsg ++ (_run_plot_tasks o u n e).code_string }) ∧
    (startswith (_run_plot_tasks o u n e).code_string failSentinel = false →
      (embed = true →
        plot o u e n embed rat = PlotOutcome.figure (_run_plot_tasks o u n e).code_string) ∧
      (embed = false → rat = true →
        plot o u e n embed rat = PlotOutcome.bundle (_run_plot_tasks o u n e)) ∧
      (embed = false → rat = false →
        plot o u e n embed rat = PlotOutcome.returnedNone)) := by
  rw [plot_unfold]
  cases h : startswith (_run_plot_tasks o u n e).code_string failSentinel <;>
    cases embed <;> cases rat <;> simp

/-- Witness for C9's amended characterization at concrete inputs: the
sentinel path with failing oracles, and the default path with succeeding
oracles. -/
theorem plot_outcome_characterization_witness :
    plot failOracles "bar chart" true 2 false false = PlotOutcome.raised
      { message := debugFailureMsg ++ (_run_plot_tasks failOracles "bar chart" 2 true).code_string } ∧
    plot okOracles "bar chart" false 2 false false = PlotOutcome.returnedNone := by
  constructor
  · exact (plot_outcome_characterization failOracles "bar chart" true 2 false false).1
      (by decide)
  · exact ((plot_outcome_characterization okOracles "bar chart" false 2 false false).2
      (by decide)).2.2 rfl rfl

/-! ## Claim theorems: graph state validation -/

theorem checkDfElems_error_of_bad (xs : List PyObj) (x : PyObj) (hx : x ∈ xs)
    (hxdf : x.isDataFrame = false) :
    checkDfElems xs = Except.error "Each element in dfs must be a Pandas DataFrame" := by
  induction xs with
  | nil => cases hx
  | cons a rest ih =>
    cases a with
    | other d => simp [checkDfElems]
    | dataFrame df =>
      rcases List.mem_cons.mp hx with h | h
      · subst h; simp [PyObj.isDataFrame] at hxdf
      · simp [checkDfElems, ih h, Except.map]

/-- Claim C5: constructing the graph state with a `dfs` input that is not a list,
or whose list contains an element that is not a pandas DataFrame, fails at
construction time with a validation error, so no `GraphState` value (and
hence no node run) is ever produced from such an input. -/
theorem graph_state_rejects_bad_dfs (messages : List (String × String))
    (md : List (String × DfMeta)) (v : PyVal) (h : badDfsInput v = true) :
    ∃ e, mkGraphState messages v md = Except.error e := by
  cases v with
  | nonList d => exact ⟨"dfs must be a list", rfl⟩
  | list xs =>
    simp only [badDfsInput, List.any_eq_true, Bool.not_eq_true'] at h
    obtain ⟨x, hx, hxdf⟩ := h
    exact ⟨"Each element in dfs must be a Pandas DataFrame", by
      simp [mkGraphState, check_dataframes,
        checkDfElems_error_of_bad xs x hx hxdf, Except.map]⟩

/-- Witness for C5: a list holding a string instead of a DataFrame is
rejected at construction. -/
theorem graph_state_rejects_bad_dfs_witness :
    badDfsInput (PyVal.list [PyObj.other "a plain string"]) = true ∧
    ∃ e, mkGraphState [] (PyVal.list [PyObj.other "a plain string"]) [] =
      Except.error e :=
  ⟨by decide, graph_state_rejects_bad_dfs [] [] _ (by decide)⟩

/-! ## Claim theorems: model resolution -/

/-- Counterexample to C8 as stated: the empty string is not a key of the
predefined model table, yet resolving it does not raise: Python's falsy test
`if not model` routes the empty string to the default model. -/
theorem get_llm_model_empty_name_no_error :
    _get_llm_model true (ModelArg.name "") =
      Except.ok { wrapper := Wrapper.chatOpenAI, model_name := DEFAULT_MODEL,
                  temperature := 0 } ∧
    (PREDEFINED_MODELS true).find? (fun p => p.1 = "") = none ∧
    ∀ e, _get_llm_model true (ModelArg.name "") ≠ Except.error e := by
  refine ⟨rfl, by decide, fun e h => ?_⟩
  rw [show _get_llm_model true (ModelArg.name "") =
      Except.ok { wrapper := Wrapper.chatOpenAI, model_name := DEFAULT_MODEL,
                  temperature := 0 } from rfl] at h
  exact Except.noConfusion h

/-- Claim C8, amended: a non-empty string name outside the predefined model table
raises a ValueError naming the model, immediately and with no retry; the
empty string is falsy in Python and therefore yields the default model; a
name in the table yields the table's wrapper instantiated with that name;
and no model argument yields the default model. -/
theorem get_llm_model_resolution (anth : Bool) (s : String) :
    (s ≠ "" → (PREDEFINED_MODELS anth).find? (fun p => p.1 = s) = none →
      _get_llm_model anth (ModelArg.name s) =
        Except.error (modelNotFoundMsg s)) ∧
    (∀ ent, (PREDEFINED_MODELS anth).find? (fun p => p.1 = s) = some ent →
      _get_llm_model anth (ModelArg.name s) =
        Except.ok { wrapper := ent.2.wrapper, model_name := s,
                    temperature := 0 }) ∧
    _get_llm_model anth ModelArg.noModel =
      Except.ok { wrapper := Wrapper.chatOpenAI, model_name := DEFAULT_MODEL,
                  temperature := 0 } := by
  refine ⟨fun hs hf => ?_, fun ent hent => ?_, rfl⟩
  · have hfal : ModelArg.isFalsy (ModelArg.name s) = false := by
      simp [ModelArg.isFalsy, hs]
    simp [_get_llm_model, hfal, hf]
  · have hs : s ≠ "" := by
      have hmem := List.mem_of_find?_eq_some hent
      have hkeys : ∀ p ∈ PREDEFINED_MODELS anth, ¬p.1 = "" := by
        cases anth <;> decide
      have hpred := List.find?_some hent
      intro h0
      subst h0
      exact hkeys ent hmem (by simpa using hpred)
    have hfal : ModelArg.isFalsy (ModelArg.name s) = false := by
      simp [ModelArg.isFalsy, hs]
    simp [_get_llm_model, hfal, hent]

/-- Witness for C8's amended statement: an unknown non-empty name errors, a
known name resolves to its wrapper, no argument resolves to the default. -/
theorem get_llm_model_resolution_witness :
    _get_llm_model true (ModelArg.name "gpt-5") =
      Except.error (modelNotFoundMsg "gpt-5") ∧
    _get_llm_model true (ModelArg.name "gpt-4o") =
      Except.ok { wrapper := Wrapper.chatOpenAI, model_name := "gpt-4o",
                  temperature := 0 } ∧
    _get_llm_model false ModelArg.noModel =
      Except.ok { wrapper := Wrapper.chatOpenAI, model_name := DEFAULT_MODEL,
                  temperature := 0 } := by
  refine ⟨(get_llm_model_resolution true "gpt-5").1 (by decide) (by decide),
    ?_, (get_llm_model_resolution false "unused").2.2⟩
  exact (get_llm_model_resolution true "gpt-4o").2.1
    ("gpt-4o", { max_tokens := 128000, wrapper := Wrapper.chatOpenAI }) (by decide)

/-! ## Lemmas and claim theorem: dataset-name sanitization -/

theorem head?_dropWhile_false (p : Char → Bool) (l : List Char) (x : Char)
    (h : (l.dropWhile p).head? = some x) : p x = false := by
  induction l with
  | nil => simp [List.dropWhile] at h
  | cons a t ih =>
    by_cases hpa : p a = true
    · rw [List.dropWhile_cons_of_pos hpa] at h
      exact ih h
    · rw [List.dropWhile_cons_of_neg hpa] at h
      simp only [List.head?_cons, Option.some.injEq] at h
      subst h
      simpa using hpa

theorem head?_dropTrailing (p : Char → Bool) (l : List Char) (x : Char)
    (h : (dropTrailing p l).head? = some x) : l.head? = some x := by
  induction l with
  | nil => simp [dropTrailing] at h
  | cons c cs ih =>
    cases hd : dropTrailing p cs with
    | nil =>
      simp only [dropTrailing, hd] at h
      by_cases hp : p c = true
      · simp [hp] at h
      · simp only [if_neg hp, List.head?_cons, Option.some.injEq] at h
        simp [h]
    | cons r rs =>
      simp only [dropTrailing, hd, List.head?_cons, Option.some.injEq] at h
      simp [h]

theorem getLast?_dropTrailing (p : Char → Bool) (l : List Char) (x : Char)
    (h : (dropTrailing p l).getLast? = some x) : p x = false := by
  induction l with
  | nil => simp [dropTrailing] at h
  | cons c cs ih =>
    cases hd : dropTrailing p cs with
    | nil =>
      simp only [dropTrailing, hd] at h
      by_cases hp : p c = true
      · simp [hp] at h
      · simp only [if_neg hp, List.getLast?_singleton, Option.some.injEq] at h
        subst h
        simpa using hp
    | cons r rs =>
      simp only [dropTrailing, hd, List.getLast?_cons_cons] at h
      rw [← hd] at h
      exact ih h

theorem dropTrailing_sublist (p : Char → Bool) (l : List Char) :
    (dropTrailing p l).Sublist l := by
  induction l with
  | nil => simp [dropTrailing]
  | cons c cs ih =>
    cases hd : dropTrailing p cs with
    | nil =>
      simp only [dropTrailing, hd]
      by_cases hp : p c = true
      · simp [hp]
      · simp only [if_neg hp]
        exact (List.nil_sublist cs).cons₂ c
    | cons r rs =>
      simp only [dropTrailing, hd]
      rw [← hd]
      exact ih.cons₂ c

theorem mem_subNonWordRuns_word (l : List Char) (b : Bool) (c : Char)
    (h : c ∈ subNonWordRuns b l) : isWordChar c = true := by
  induction l generalizing b with
  | nil => simp [subNonWordRuns] at h
  | cons a t ih =>
    by_cases ha : isWordChar a = true
    · rw [subNonWordRuns, if_pos ha] at h
      rcases List.mem_cons.mp h with rfl | h
      · exact ha
      · exact ih false h
    · rw [subNonWordRuns, if_neg ha] at h
      cases b with
      | true =>
        rw [if_pos rfl] at h
        exact ih true h
      | false =>
        rw [if_neg Bool.false_ne_true] at h
        rcases List.mem_cons.mp h with rfl | h
        · decide
        · exact ih true h

theorem mem_stripUnderscores (l : List Char) (c : Char)
    (h : c ∈ stripUnderscores l) : c ∈ l := by
  unfold stripUnderscores at h
  exact (List.dropWhile_sublist _).subset
    ((dropTrailing_sublist _ _).subset h)

/-- Claim C6: the sanitization of `_store_df_info` maps "Global Demographics!!" to
"global_demographics"; in general the sanitized name never starts or ends
with the underscore separator, and every character of the sanitized name is
a word character (so every maximal non-word run has been collapsed into the
single underscore separator). -/
theorem clean_df_name_sanitization :
    cleanDfName "Global Demographics!!" = "global_demographics" ∧
    (∀ s : String, (cleanDfName s).data.head? ≠ some '_' ∧
      (cleanDfName s).data.getLast? ≠ some '_') ∧
    (∀ s : String, ∀ c ∈ (cleanDfName s).data, isWordChar c = true) := by
  refine ⟨by decide, fun s => ⟨fun h => ?_, fun h => ?_⟩, fun s c hc => ?_⟩
  · have h2 := head?_dropTrailing (fun c => c = '_') _ _ h
    have h3 := head?_dropWhile_false (fun c => c = '_') _ _ h2
    simp at h3
  · have h2 := getLast?_dropTrailing (fun c => c = '_') _ _ h
    simp at h2
  · exact mem_subNonWordRuns_word _ false c (mem_stripUnderscores _ c hc)

/-- Witness for C6 at concrete inputs: the specified example, a name with
leading and trailing separators, and a concrete word-character instance. -/
theorem clean_df_name_sanitization_witness :
    cleanDfName "Global Demographics!!" = "global_demographics" ∧
    (cleanDfName "__Weird  name__").data.head? ≠ some '_' ∧
    (cleanDfName "__Weird  name__").data.getLast? ≠ some '_' ∧
    isWordChar 'g' = true := by
  refine ⟨clean_df_name_sanitization.1,
    (clean_df_name_sanitization.2.1 "__Weird  name__").1,
    (clean_df_name_sanitization.2.1 "__Weird  name__").2, ?_⟩
  exact clean_df_name_sanitization.2.2 "Global Demographics!!" 'g' (by decide)

/-! ## Lemmas and claim theorem: dashboard graph execution order -/

theorem traceFrom_succ (g : StateGraphDef) (f : Nat) (nd : String) :
    traceFrom g (f + 1) nd =
      if nd = ENDNode then []
      else nd :: (match nextNode g nd with
        | none => []
        | some m => traceFrom g f m) := rfl

theorem traceFrom_step (f : Nat) (nd nxt : String) (h : ¬nd = ENDNode)
    (hn : nextNode _create_and_compile_graph nd = some nxt) :
    traceFrom _create_and_compile_graph (f + 1) nd =
      nd :: traceFrom _create_and_compile_graph f nxt := by
  rw [traceFrom_succ, if_neg h, hn]

theorem traceFrom_end (f : Nat) :
    traceFrom _create_and_compile_graph (f + 1) ENDNode = [] := by
  rw [traceFrom_succ, if_pos rfl]

/-- Claim C7: with enough fuel (at least the six steps a run takes), every run of
the compiled dashboard graph executes the nodes in exactly the fixed order
store-dataset-info, compose-imports, plan-dashboard, build-dashboard,
generate-code and then stops at the END sentinel; the entry point is the
store-dataset-info node, and every node has exactly one (unconditional)
outgoing edge, so no conditional branching can occur. -/
theorem dashboard_graph_fixed_order (fuel : Nat) (h : 6 ≤ fuel) :
    graphTrace _create_and_compile_graph fuel =
      ["_store_df_info", "_compose_imports_code", "_dashboard_plan",
       "_build_dashboard", "_generate_dashboard_code"] ∧
    _create_and_compile_graph.entry = "_store_df_info" ∧
    (∀ nd ∈ _create_and_compile_graph.nodes,
      (_create_and_compile_graph.edges.filter (fun e => e.1 = nd)).length = 1) := by
  obtain ⟨k, rfl⟩ : ∃ k, fuel = k + 6 := ⟨fuel - 6, by omega⟩
  refine ⟨?_, rfl, by decide⟩
  have e1 : traceFrom _create_and_compile_graph (k + 6) "_store_df_info" =
      "_store_df_info" :: traceFrom _create_and_compile_graph (k + 5) "_compose_imports_code" :=
    traceFrom_step (k + 5) _ _ (by decide) (by decide)
  have e2 : traceFrom _create_and_compile_graph (k + 5) "_compose_imports_code" =
      "_compose_imports_code" :: traceFrom _create_and_compile_graph (k + 4) "_dashboard_plan" :=
    traceFrom_step (k + 4) _ _ (by decide) (by decide)
  have e3 : traceFrom _create_and_compile_graph (k + 4) "_dashboard_plan" =
      "_dashboard_plan" :: traceFrom _create_and_compile_graph (k + 3) "_build_dashboard" :=
    traceFrom_step (k + 3) _ _ (by decide) (by decide)
  have e4 : traceFrom _create_and_compile_graph (k + 3) "_build_dashboard" =
      "_build_dashboard" :: traceFrom _create_and_compile_graph (k + 2) "_generate_dashboard_code" :=
    traceFrom_step (k + 2) _ _ (by decide) (by decide)
  have e5 : traceFrom _create_and_compile_graph (k + 2) "_generate_dashboard_code" =
      "_generate_dashboard_code" :: traceFrom _create_and_compile_graph (k + 1) ENDNode :=
    traceFrom_step (k + 1) _ _ (by decide) (by decide)
  have e6 : traceFrom _create_and_compile_graph (k + 1) ENDNode = [] :=
    traceFrom_end k
  show traceFrom _create_and_compile_graph (k + 6) "_store_df_info" = _
  rw [e1, e2, e3, e4, e5, e6]

/-- Witness for C7 at the concrete fuel value 10. -/
theorem dashboard_graph_fixed_order_witness :
    graphTrace _create_and_compile_graph 10 =
      ["_store_df_info", "_compose_imports_code", "_dashboard_plan",
       "_build_dashboard", "_generate_dashboard_code"] ∧
    _create_and_compile_graph.entry = "_store_df_info" ∧
    (∀ nd ∈ _create_and_compile_graph.nodes,
      (_create_and_compile_graph.edges.filter (fun e => e.1 = nd)).length = 1) :=
  dashboard_graph_fixed_order 10 (by decide)

/-! ## Lemmas and claim theorem: duplicate sanitized names in
`_store_df_info` -/

theorem dictGet_dictInsert (k kin : String) (v : DfMeta)
    (m : List (String × DfMeta)) :
    dictGet k (dictInsert kin v m) = if kin = k then some v else dictGet k m := by
  induction m with
  | nil => simp [dictInsert, dictGet]
  | cons a rest ih =>
    obtain ⟨k', v'⟩ := a
    by_cases h : k' = kin
    · subst h
      by_cases h2 : k' = k <;> simp [dictInsert, dictGet, h2]
    · by_cases h2 : k' = k
      · subst h2
        have : ¬kin = k' := fun hc => h hc.symm
        simp [dictInsert, dictGet, h, this]
      · simp [dictInsert, dictGet, h, h2, ih]

theorem lastWrite_cons (k kid : String) (meta : DfMeta)
    (E : List (String × DfMeta)) :
    lastWrite k ((kid, meta) :: E) =
      match lastWrite k E with
      | some v => some v
      | none => if kid = k then some meta else none := by
  unfold lastWrite
  rw [List.reverse_cons, List.find?_append]
  cases h : E.reverse.find? (fun p => p.1 = k) with
  | some pr => simp [h, Option.orElse]
  | none =>
    by_cases hk : kid = k <;> simp [h, Option.orElse, List.find?, hk]

theorem storeDfInfoGo_get (g : DataFrame → String × String)
    (o : String → String → List (String × String) → List DfInfo → DfInfo)
    (msgs : List (String × String)) (dfs : List DataFrame)
    (names : List DfInfo) (md : List (String × DfMeta)) (k : String) :
    dictGet k (storeDfInfoGo g o msgs dfs names md) =
      match lastWrite k (producedEntries g o msgs dfs names) with
      | some v => some v
      | none => dictGet k md := by
  induction dfs generalizing names md with
  | nil => simp [storeDfInfoGo, producedEntries, lastWrite]
  | cons df rest ih =>
    rw [storeDfInfoGo, producedEntries, lastWrite_cons, ih, dictGet_dictInsert]
    cases lastWrite k (producedEntries g o msgs rest
        (names ++ [o (g df).1 (g df).2 msgs names])) with
    | some v => rfl
    | none =>
      by_cases hk :
          cleanDfName (o (g df).1 (g df).2 msgs names).dataset_name = k <;>
        simp [hk]

theorem mem_keys_dictInsert (k : String) (v : DfMeta)
    (m : List (String × DfMeta)) (x : String)
    (hx : x ∈ (dictInsert k v m).map Prod.fst) :
    x = k ∨ x ∈ m.map Prod.fst := by
  induction m with
  | nil =>
    simp [dictInsert] at hx
    exact Or.inl hx
  | cons a rest ih =>
    obtain ⟨k', v'⟩ := a
    by_cases h : k' = k
    · simp only [dictInsert, if_pos h, List.map_cons, List.mem_cons] at hx
      rcases hx with hx | hx
      · exact Or.inl hx
      · exact Or.inr (by simp only [List.map_cons, List.mem_cons]; exact Or.inr hx)
    · simp only [dictInsert, if_neg h, List.map_cons, List.mem_cons] at hx
      rcases hx with hx | hx
      · exact Or.inr (by simp only [List.map_cons, List.mem_cons]; exact Or.inl hx)
      · rcases ih hx with hx2 | hx2
        · exact Or.inl hx2
        · exact Or.inr (by simp only [List.map_cons, List.mem_cons]; exact Or.inr hx2)

theorem dictInsert_keys_nodup (k : String) (v : DfMeta)
    (m : List (String × DfMeta)) (h : (m.map Prod.fst).Nodup) :
    ((dictInsert k v m).map Prod.fst).Nodup := by
  induction m with
  | nil => simp [dictInsert]
  | cons a rest ih =>
    obtain ⟨k', v'⟩ := a
    simp only [List.map_cons, List.nodup_cons] at h
    by_cases hk : k' = k
    · subst hk
      simpa [dictInsert, List.nodup_cons] using h
    · simp only [dictInsert, if_neg hk, List.map_cons, List.nodup_cons]
      refine ⟨fun hmem => ?_, ih h.2⟩
      rcases mem_keys_dictInsert k v rest k' hmem with hx | hx
      · exact hk hx
      · exact h.1 hx

theorem storeDfInfoGo_keys_nodup (g : DataFrame → String × String)
    (o : String → String → List (String × String) → List DfInfo → DfInfo)
    (msgs : List (String × String)) (dfs : List DataFrame)
    (names : List DfInfo) (md : List (String × DfMeta))
    (h : (md.map Prod.fst).Nodup) :
    ((storeDfInfoGo g o msgs dfs names md).map Prod.fst).Nodup := by
  induction dfs generalizing names md with
  | nil => simpa [storeDfInfoGo] using h
  | cons df rest ih =>
    rw [storeDfInfoGo]
    exact ih _ _ (dictInsert_keys_nodup _ _ _ h)

/-- Claim C10: in `_store_df_info`, a later dataset whose sanitized name collides
with an earlier one silently overwrites that entry: for every key, the final
dictionary holds the metadata of the last dataset that produced the key, and
is unchanged at keys no dataset produced (the node never rejects or renames
a duplicate); provided the incoming dictionary has no duplicate keys, the
resulting dictionary holds exactly one entry per distinct sanitized name. -/
theorem store_df_info_last_write_wins (g : DataFrame → String × String)
    (o : String → String → List (String × String) → List DfInfo → DfInfo)
    (state : GraphState) (k : String)
    (h : (state.df_metadata.map Prod.fst).Nodup) :
    (∀ v, lastWrite k (producedEntries g o state.messages state.dfs []) = some v →
      dictGet k (_store_df_info g o state) = some v) ∧
    (lastWrite k (producedEntries g o state.messages state.dfs []) = none →
      dictGet k (_store_df_info g o state) = dictGet k state.df_metadata) ∧
    ((_store_df_info g o state).map Prod.fst).Nodup := by
  refine ⟨fun v hv => ?_, fun hn => ?_, ?_⟩
  · rw [_store_df_info, storeDfInfoGo_get, hv]
  · rw [_store_df_info, storeDfInfoGo_get, hn]
  · exact storeDfInfoGo_keys_nodup g o _ _ _ _ h

/-- Witness for C10: two dataframes both named "Same Name!" by the oracle
collide on the sanitized key, and the second one's schema wins. -/
theorem store_df_info_last_write_wins_witness :
    dictGet "same_name"
      (_store_df_info
        (fun d => (if d.dfId = 0 then "schema0" else "schema1", "sample"))
        (fun _ _ _ _ => { dataset_name := "Same Name!" })
        { messages := [], dfs := [{ dfId := 0 }, { dfId := 1 }],
          df_metadata := [] }) =
      some { df_schema := "schema1", df_sample := "sample" } ∧
    ((_store_df_info
        (fun d => (if d.dfId = 0 then "schema0" else "schema1", "sample"))
        (fun _ _ _ _ => { dataset_name := "Same Name!" })
        { messages := [], dfs := [{ dfId := 0 }, { dfId := 1 }],
          df_metadata := [] }).map Prod.fst).Nodup := by
  constructor
  · exact (store_df_info_last_write_wins
      (fun d => (if d.dfId = 0 then "schema0" else "schema1", "sample"))
      (fun _ _ _ _ => { dataset_name := "Same Name!" })
      { messages := [], dfs := [{ dfId := 0 }, { dfId := 1 }], df_metadata := [] }
      "same_name" (by decide)).1
      { df_schema := "schema1", df_sample := "sample" } (by decide)
  · exact (store_df_info_last_write_wins
      (fun d => (if d.dfId = 0 then "schema0" else "schema1", "sample"))
      (fun _ _ _ _ => { dataset_name := "Same Name!" })
      { messages := [], dfs := [{ dfId := 0 }, { dfId := 1 }], df_metadata := [] }
      "same_name" (by decide)).2.2

end VizroAI
